import Mathlib

/-!
Shallow embedding of `xai/data/explorer/numerical/numerical_analyzer.py`
(class `NumericDataAnalyzer`) together with a model of its collaborators
that the repository references but whose sources are not available here
(`NumericalStats`, `ItemDataTypeNotSupported`, the `values` attribute of
`AbstractDataAnalyzer`); those collaborators are modelled from the spec.

Python runtime values are embedded as an inductive of the kinds relevant
to the analyzer; Python `float` is modelled by the rationals (every IEEE
double is a rational, and every literal appearing in the spec is exact).
Exceptions are modelled by returning the mutated-so-far object paired
with an optional structured error, mirroring Python semantics where a
raise propagates while `self` keeps the mutations performed so far.
-/

/-- Embedding of the Python runtime values the analyzer can be fed:
integers, floats (as rationals), booleans, strings and `None`. -/
inductive PyValue where
  | vint : Int → PyValue
  | vfloat : ℚ → PyValue
  | vbool : Bool → PyValue
  | vstr : String → PyValue
  | vnone : PyValue
deriving DecidableEq

/-- Embedding of the Python runtime types (`type(value)`) of the values
above. In Python, `type True = bool`, a distinct type object from `int`,
even though `bool` is a subclass of `int`. -/
inductive PyType where
  | int : PyType
  | float : PyType
  | bool : PyType
  | str : PyType
  | NoneType : PyType
deriving DecidableEq

/-- The Python builtin `type(value)`. -/
def pyType : PyValue → PyType
  | .vint _ => .int
  | .vfloat _ => .float
  | .vbool _ => .bool
  | .vstr _ => .str
  | .vnone => .NoneType

/-- Python's `issubclass` on the embedded types: every type is a subclass
of itself, and `bool` is a subclass of `int` (the one nontrivial edge of
the builtin numeric tower that matters here). -/
def PyType.isSubclassOf : PyType → PyType → Bool
  | .bool, .int => true
  | t, u => t == u

/-- The numeric reading of a value. `int` and `float` values are read as
the rational they denote. The remaining constructors are never passed to
the Statistics Deriver (the Collector rejects them at ingestion), so
their reading is junk: `bool` follows Python (`True == 1`), the rest read
as `0`. -/
def PyValue.toRat : PyValue → ℚ
  | .vint n => (n : ℚ)
  | .vfloat q => q
  | .vbool b => if b then 1 else 0
  | .vstr _ => 0
  | .vnone => 0

/-- Identity of a rejecting component: `type(self)` passed to the
exception. Only one analyzer class occurs in this file. -/
inductive AnalyzerType where
  | NumericDataAnalyzer : AnalyzerType
deriving DecidableEq

/-- Modelled from the spec: `ItemDataTypeNotSupported` lives in
`xai.data.exceptions`, outside the available sources. Per the spec's
Error Signal Contract it is a structured error carrying the rejected
value's kind, the identity of the rejecting component, and the set of
accepted kinds — exactly the three arguments `feed` constructs it with. -/
structure ItemDataTypeNotSupported where
  item_type : PyType
  analyzer_type : AnalyzerType
  supported_types : List PyType
deriving DecidableEq

/-- A value of the serialized statistics mapping: a number or the
explicit "no value" marker (`null`). -/
inductive JsonValue where
  | num : ℚ → JsonValue
  | null : JsonValue
deriving DecidableEq

/-- Keys of the serialized statistics mapping (the fixed statistic names
of the spec's §4.2 schema). -/
inductive StatKey where
  | count : StatKey
  | min : StatKey
  | max : StatKey
  | mean : StatKey
  | median : StatKey
  | sum : StatKey
  | variance : StatKey
  | standard_deviation : StatKey
deriving DecidableEq

/-- Modelled from the spec: `NumericalStats` (module
`xai.data.explorer.numerical.numerical_stats`) is not among the
available sources. Per §4.2 it is the fixed-schema Statistics Record:
`count`, `min`, `max`, `mean`, `median`, `variance`,
`standard_deviation`, `sum`, where the statistics undefined on an empty
snapshot carry an explicit "no value" marker (`Option.none` here). -/
structure NumericalStats where
  count : Nat
  min : Option ℚ
  max : Option ℚ
  mean : Option ℚ
  median : Option ℚ
  variance : Option ℚ
  standard_deviation : Option ℚ
  sum : ℚ
deriving DecidableEq

/-- Largest `k ≤ bound` with `k * k ≤ n` (integer square root search,
structurally recursive on the bound). -/
def isqrtGo (n : Nat) : Nat → Nat
  | 0 => 0
  | k + 1 => if (k + 1) * (k + 1) ≤ n then k + 1 else isqrtGo n k

/-- Integer square root: largest `k` with `k * k ≤ n`. -/
def isqrt (n : Nat) : Nat := isqrtGo n n

/-- Exact square root on the rationals that the Statistics Record ever
holds: on a rational whose reduced numerator and denominator are perfect
squares (in particular on every perfect-square integer, the only regime
the spec's stated values exercise) this is the exact nonnegative square
root; elsewhere it is a floor approximation standing in for the
floating-point `sqrt`. -/
def ratSqrt (q : ℚ) : ℚ :=
  (isqrt q.num.toNat : ℚ) / (isqrt q.den : ℚ)

/-- The Deriver's local view of a snapshot: the numeric readings of the
values, sorted ascending. -/
def sortedValues (values : List PyValue) : List ℚ :=
  List.insertionSort (· ≤ ·) (values.map PyValue.toRat)

/-- Modelled from the spec: the statistics derivation of
`NumericalStats.updates_stats_from_values`, absent from the available
sources, per §4.2: sort a local copy of the snapshot ascending; `count`
is the number of values; `min`/`max` are the endpoints of the sorted
copy; `mean` is sum divided by count; `median` is the middle value, or
for an even count the mean of the two central values; `variance` is the
mean of squared deviations from the mean (population variance);
`standard_deviation` is its square root; `sum` is the total. On an empty
snapshot every statistic other than `count` and `sum` is the "no value"
marker. The sorted local view is factored out as `sortedValues`. -/
def updates_stats_from_values (values : List PyValue) : NumericalStats :=
  let xs : List ℚ := sortedValues values
  let n : Nat := xs.length
  if n = 0 then
    { count := 0, min := none, max := none, mean := none, median := none,
      variance := none, standard_deviation := none, sum := 0 }
  else
    let s : ℚ := xs.sum
    let m : ℚ := s / (n : ℚ)
    let med : ℚ :=
      if n % 2 = 1 then xs.getD (n / 2) 0
      else (xs.getD (n / 2 - 1) 0 + xs.getD (n / 2) 0) / 2
    let v : ℚ := (xs.map (fun x => (x - m) ^ 2)).sum / (n : ℚ)
    { count := n, min := xs.head?, max := xs.getLast?, mean := some m,
      median := some med, variance := some v,
      standard_deviation := some (ratSqrt v), sum := s }

/-- Modelled from the spec: `NumericalStats.to_json`, absent from the
available sources, renders the record as a plain mapping from statistic
name to numeric value or the "no value" marker, in the fixed schema
order. -/
def NumericalStats.to_json (s : NumericalStats) : List (StatKey × JsonValue) :=
  let opt : Option ℚ → JsonValue := fun o => match o with
    | some q => JsonValue.num q
    | none => JsonValue.null
  [(StatKey.count, JsonValue.num (s.count : ℚ)),
   (StatKey.min, opt s.min),
   (StatKey.max, opt s.max),
   (StatKey.mean, opt s.mean),
   (StatKey.median, opt s.median),
   (StatKey.sum, JsonValue.num s.sum),
   (StatKey.variance, opt s.variance),
   (StatKey.standard_deviation, opt s.standard_deviation)]

/-- State of a `NumericDataAnalyzer` instance: the Value Buffer
`_values` and the cached last-computed stats, both as initialized by
`__init__` (`self._values = []`, `self.stats = None`). -/
structure NumericDataAnalyzer where
  _values : List PyValue
  stats : Option NumericalStats
deriving DecidableEq

namespace NumericDataAnalyzer

/-- `SUPPORTED_TYPES = [int, float]`. -/
def SUPPORTED_TYPES : List PyType := [PyType.int, PyType.float]

/-- `__init__`: empty buffer, no cached stats. -/
def init : NumericDataAnalyzer := { _values := [], stats := none }

/-- Modelled from the spec: `get_statistics` reads `self.values`, an
attribute supplied by the `AbstractDataAnalyzer` base class, which is
outside the available sources; per the spec the Collector hands its
Value Buffer to the Deriver, so `values` exposes the buffer. -/
def values (a : NumericDataAnalyzer) : List PyValue := a._values

/-- `feed`: if `type(value) not in SUPPORTED_TYPES`, raise
`ItemDataTypeNotSupported(type(value), type(self), SUPPORTED_TYPES)`;
otherwise append the value to `self._values`. The result pairs the
object state after the call with the raised exception, if any. -/
def feed (a : NumericDataAnalyzer) (value : PyValue) :
    NumericDataAnalyzer × Option ItemDataTypeNotSupported :=
  if pyType value ∉ SUPPORTED_TYPES then
    (a, some { item_type := pyType value,
               analyzer_type := AnalyzerType.NumericDataAnalyzer,
               supported_types := SUPPORTED_TYPES })
  else
    ({ a with _values := a._values ++ [value] }, none)

/-- `feed_all`: feed each value in order; a raise from `feed` propagates
immediately, aborting the loop. -/
def feed_all (a : NumericDataAnalyzer) :
    List PyValue → NumericDataAnalyzer × Option ItemDataTypeNotSupported
  | [] => (a, none)
  | v :: vs =>
    match feed a v with
    | (a1, none) => feed_all a1 vs
    | (a1, some e) => (a1, some e)

/-- `get_statistics`: build a fresh `NumericalStats` from the buffered
values, store it in `self.stats`, and return its serialized form. -/
def get_statistics (a : NumericDataAnalyzer) :
    NumericDataAnalyzer × List (StatKey × JsonValue) :=
  let s := updates_stats_from_values a.values
  ({ a with stats := some s }, s.to_json)

end NumericDataAnalyzer

namespace NumericDataAnalyzer

/-- On a supported value, `feed` appends to the buffer and raises
nothing. -/
theorem feed_of_supported (a : NumericDataAnalyzer) (v : PyValue)
    (h : pyType v ∈ SUPPORTED_TYPES) :
    feed a v = ({ a with _values := a._values ++ [v] }, none) := by
  simp [feed, h]

/-- On an unsupported value, `feed` leaves the state untouched and
raises the structured error. -/
theorem feed_of_not_supported (a : NumericDataAnalyzer) (v : PyValue)
    (h : pyType v ∉ SUPPORTED_TYPES) :
    feed a v =
      (a, some { item_type := pyType v,
                 analyzer_type := AnalyzerType.NumericDataAnalyzer,
                 supported_types := SUPPORTED_TYPES }) := by
  simp [feed, h]

/-- On a list of supported values, `feed_all` appends them all in order
and raises nothing. -/
theorem feed_all_of_supported (vs : List PyValue) :
    ∀ a : NumericDataAnalyzer, (∀ v ∈ vs, pyType v ∈ SUPPORTED_TYPES) →
    feed_all a vs = ({ a with _values := a._values ++ vs }, none) := by
  induction vs with
  | nil => intro a _; simp [feed_all]
  | cons v vs ih =>
    intro a h
    have hv : pyType v ∈ SUPPORTED_TYPES := h v (List.mem_cons_self v vs)
    have hrest : ∀ w ∈ vs, pyType w ∈ SUPPORTED_TYPES :=
      fun w hw => h w (List.mem_cons_of_mem v hw)
    rw [feed_all, feed_of_supported a v hv]
    simp [ih _ hrest]

end NumericDataAnalyzer

/-- The sorted local view has as many entries as the snapshot. -/
theorem sortedValues_length (l : List PyValue) :
    (sortedValues l).length = l.length := by
  rw [sortedValues, (List.perm_insertionSort _ _).length_eq, List.length_map]

/-- Permuted snapshots have the same sorted local view. -/
theorem sortedValues_perm (l1 l2 : List PyValue) (h : l1.Perm l2) :
    sortedValues l1 = sortedValues l2 := by
  apply List.eq_of_perm_of_sorted (r := ((· ≤ ·) : ℚ → ℚ → Prop))
  · exact (List.perm_insertionSort _ _).trans
      ((h.map PyValue.toRat).trans (List.perm_insertionSort _ _).symm)
  · exact List.sorted_insertionSort _ _
  · exact List.sorted_insertionSort _ _

/-- The Statistics Record is invariant under permutation of the
snapshot. -/
theorem updates_stats_perm (l1 l2 : List PyValue) (h : l1.Perm l2) :
    updates_stats_from_values l1 = updates_stats_from_values l2 := by
  unfold updates_stats_from_values
  rw [sortedValues_perm l1 l2 h]

/-- The `count` field is the length of the snapshot. -/
theorem updates_stats_count (l : List PyValue) :
    (updates_stats_from_values l).count = l.length := by
  have hl := sortedValues_length l
  simp only [updates_stats_from_values]
  split
  next h =>
    show 0 = l.length
    omega
  next h =>
    show (sortedValues l).length = l.length
    exact hl

open NumericDataAnalyzer in
/-- C1: for every finite sequence of values of supported numeric kinds,
`feed_all` on a fresh Collector raises nothing, and `get_statistics`
then returns a record whose `count` equals the sequence length (both in
the stored `NumericalStats` and in the serialized mapping). -/
theorem C1_feed_all_then_count (vs : List PyValue)
    (h : ∀ v ∈ vs, pyType v ∈ SUPPORTED_TYPES) :
    (feed_all init vs).2 = none ∧
    (updates_stats_from_values (feed_all init vs).1._values).count
      = vs.length ∧
    ((get_statistics (feed_all init vs).1).2).lookup StatKey.count
      = some (JsonValue.num (vs.length : ℚ)) := by
  rw [feed_all_of_supported vs init h]
  refine ⟨rfl, ?_, ?_⟩
  · simp [init, updates_stats_count]
  · simp [get_statistics, values, init, NumericalStats.to_json,
      List.lookup, updates_stats_count]

open NumericDataAnalyzer in
/-- Witness for C1 at the concrete input `[1, 2.0]`. -/
theorem C1_feed_all_then_count_witness :
    (∀ v ∈ [PyValue.vint 1, PyValue.vfloat 2],
        pyType v ∈ SUPPORTED_TYPES) ∧
    ((feed_all init [PyValue.vint 1, PyValue.vfloat 2]).2 = none ∧
     (updates_stats_from_values
       (feed_all init [PyValue.vint 1, PyValue.vfloat 2]).1._values).count
       = [PyValue.vint 1, PyValue.vfloat 2].length ∧
     ((get_statistics
        (feed_all init [PyValue.vint 1, PyValue.vfloat 2]).1).2).lookup
          StatKey.count
       = some (JsonValue.num ([PyValue.vint 1, PyValue.vfloat 2].length : ℚ))) :=
  ⟨by decide, C1_feed_all_then_count [PyValue.vint 1, PyValue.vfloat 2]
    (by decide)⟩

open NumericDataAnalyzer in
/-- C2: on a fresh Collector with no fed values, `get_statistics` raises
nothing (it is a total function here) and returns a mapping with
`count = 0` and `min`, `max`, `mean`, `median`, `variance`,
`standard_deviation` all the explicit "no value" marker. -/
theorem C2_empty_buffer_stats :
    ((get_statistics init).2).lookup StatKey.count
      = some (JsonValue.num 0) ∧
    ((get_statistics init).2).lookup StatKey.min = some JsonValue.null ∧
    ((get_statistics init).2).lookup StatKey.max = some JsonValue.null ∧
    ((get_statistics init).2).lookup StatKey.mean = some JsonValue.null ∧
    ((get_statistics init).2).lookup StatKey.median = some JsonValue.null ∧
    ((get_statistics init).2).lookup StatKey.variance
      = some JsonValue.null ∧
    ((get_statistics init).2).lookup StatKey.standard_deviation
      = some JsonValue.null := by
  norm_num [get_statistics, values, init, updates_stats_from_values,
    sortedValues, NumericalStats.to_json, List.lookup]
  decide

open NumericDataAnalyzer in
/-- C3: feeding a value of an unsupported runtime kind raises the
structured `ItemDataTypeNotSupported` error carrying the rejected kind,
the rejecting component and the accepted kinds, and leaves the Value
Buffer unchanged. -/
theorem C3_feed_unsupported_raises (a : NumericDataAnalyzer) (v : PyValue)
    (h : pyType v ∉ SUPPORTED_TYPES) :
    feed a v =
      (a, some { item_type := pyType v,
                 analyzer_type := AnalyzerType.NumericDataAnalyzer,
                 supported_types := SUPPORTED_TYPES }) ∧
    (feed a v).1._values = a._values := by
  have he := feed_of_not_supported a v h
  exact ⟨he, by rw [he]⟩

open NumericDataAnalyzer in
/-- Witness for C3 at the concrete input `None` on a fresh Collector. -/
theorem C3_feed_unsupported_raises_witness :
    pyType PyValue.vnone ∉ SUPPORTED_TYPES ∧
    (feed init PyValue.vnone =
      (init, some { item_type := pyType PyValue.vnone,
                    analyzer_type := AnalyzerType.NumericDataAnalyzer,
                    supported_types := SUPPORTED_TYPES }) ∧
     (feed init PyValue.vnone).1._values = init._values) :=
  ⟨by decide, C3_feed_unsupported_raises init PyValue.vnone (by decide)⟩

open NumericDataAnalyzer in
/-- C4: `feed_all` on a sequence whose first unsupported value is `bad`
feeds the preceding values in order, raises the structured error for
`bad`, processes none of the later values, and leaves the buffer holding
exactly the prior contents followed by the values before `bad`. -/
theorem C4_feed_all_fail_fast (a : NumericDataAnalyzer)
    (pre rest : List PyValue) (bad : PyValue)
    (hpre : ∀ v ∈ pre, pyType v ∈ SUPPORTED_TYPES)
    (hbad : pyType bad ∉ SUPPORTED_TYPES) :
    feed_all a (pre ++ bad :: rest) =
      ({ a with _values := a._values ++ pre },
       some { item_type := pyType bad,
              analyzer_type := AnalyzerType.NumericDataAnalyzer,
              supported_types := SUPPORTED_TYPES }) := by
  induction pre generalizing a with
  | nil =>
    rw [List.nil_append, feed_all, feed_of_not_supported a bad hbad]
    simp
  | cons p pre ih =>
    have hp : pyType p ∈ SUPPORTED_TYPES := hpre p (List.mem_cons_self p pre)
    have hrest : ∀ v ∈ pre, pyType v ∈ SUPPORTED_TYPES :=
      fun v hv => hpre v (List.mem_cons_of_mem p hv)
    rw [List.cons_append, feed_all, feed_of_supported a p hp]
    simp only []
    rw [ih _ hrest]
    simp

open NumericDataAnalyzer in
/-- Witness for C4: feeding `[1, None, 2]` into a fresh Collector stops
at `None` with the buffer holding `[1]`. -/
theorem C4_feed_all_fail_fast_witness :
    (∀ v ∈ [PyValue.vint 1], pyType v ∈ SUPPORTED_TYPES) ∧
    pyType PyValue.vnone ∉ SUPPORTED_TYPES ∧
    feed_all init ([PyValue.vint 1] ++ PyValue.vnone :: [PyValue.vint 2]) =
      ({ init with _values := init._values ++ [PyValue.vint 1] },
       some { item_type := pyType PyValue.vnone,
              analyzer_type := AnalyzerType.NumericDataAnalyzer,
              supported_types := SUPPORTED_TYPES }) :=
  ⟨by decide, by decide,
   C4_feed_all_fail_fast init [PyValue.vint 1] [PyValue.vint 2]
     PyValue.vnone (by decide) (by decide)⟩

open NumericDataAnalyzer in
/-- C5: two fresh Collectors fed the same multiset of supported numeric
values in possibly different orders both succeed and produce identical
Statistics Records (the stored record and the serialized mapping). -/
theorem C5_determinism (vs1 vs2 : List PyValue) (hperm : vs1.Perm vs2)
    (h1 : ∀ v ∈ vs1, pyType v ∈ SUPPORTED_TYPES) :
    (feed_all init vs1).2 = none ∧ (feed_all init vs2).2 = none ∧
    (get_statistics (feed_all init vs1).1).1.stats
      = (get_statistics (feed_all init vs2).1).1.stats ∧
    (get_statistics (feed_all init vs1).1).2
      = (get_statistics (feed_all init vs2).1).2 := by
  have h2 : ∀ v ∈ vs2, pyType v ∈ SUPPORTED_TYPES :=
    fun v hv => h1 v (hperm.mem_iff.mpr hv)
  rw [feed_all_of_supported vs1 init h1, feed_all_of_supported vs2 init h2]
  have hs : updates_stats_from_values vs1 = updates_stats_from_values vs2 :=
    updates_stats_perm vs1 vs2 hperm
  exact ⟨rfl, rfl, by simp [get_statistics, values, init, hs],
    by simp [get_statistics, values, init, hs]⟩

open NumericDataAnalyzer in
/-- Witness for C5 at the spec's example: `[3, 1, 2]` versus
`[1, 2, 3]`. -/
theorem C5_determinism_witness :
    List.Perm [PyValue.vint 3, PyValue.vint 1, PyValue.vint 2]
      [PyValue.vint 1, PyValue.vint 2, PyValue.vint 3] ∧
    (∀ v ∈ [PyValue.vint 3, PyValue.vint 1, PyValue.vint 2],
      pyType v ∈ SUPPORTED_TYPES) ∧
    ((feed_all init [PyValue.vint 3, PyValue.vint 1, PyValue.vint 2]).2
        = none ∧
     (feed_all init [PyValue.vint 1, PyValue.vint 2, PyValue.vint 3]).2
        = none ∧
     (get_statistics
        (feed_all init [PyValue.vint 3, PyValue.vint 1, PyValue.vint 2]).1).1.stats
       = (get_statistics
        (feed_all init [PyValue.vint 1, PyValue.vint 2, PyValue.vint 3]).1).1.stats ∧
     (get_statistics
        (feed_all init [PyValue.vint 3, PyValue.vint 1, PyValue.vint 2]).1).2
       = (get_statistics
        (feed_all init [PyValue.vint 1, PyValue.vint 2, PyValue.vint 3]).1).2) :=
  ⟨by decide, by decide,
   C5_determinism [PyValue.vint 3, PyValue.vint 1, PyValue.vint 2]
     [PyValue.vint 1, PyValue.vint 2, PyValue.vint 3]
     (by decide) (by decide)⟩

open NumericDataAnalyzer in
/-- C6: feeding `[2, 4, 4, 4, 5, 5, 7, 9]` into a fresh Collector
succeeds and `get_statistics` returns `count = 8`, `min = 2`, `max = 9`,
`mean = 5`, `median = 9/2`, `sum = 40`, `variance = 4`,
`standard_deviation = 2`. -/
theorem C6_concrete_scenario :
    (feed_all init [PyValue.vint 2, PyValue.vint 4, PyValue.vint 4,
        PyValue.vint 4, PyValue.vint 5, PyValue.vint 5, PyValue.vint 7,
        PyValue.vint 9]).2 = none ∧
    (get_statistics (feed_all init [PyValue.vint 2, PyValue.vint 4,
        PyValue.vint 4, PyValue.vint 4, PyValue.vint 5, PyValue.vint 5,
        PyValue.vint 7, PyValue.vint 9]).1).2 =
      [(StatKey.count, JsonValue.num 8),
       (StatKey.min, JsonValue.num 2),
       (StatKey.max, JsonValue.num 9),
       (StatKey.mean, JsonValue.num 5),
       (StatKey.median, JsonValue.num (9 / 2)),
       (StatKey.sum, JsonValue.num 40),
       (StatKey.variance, JsonValue.num 4),
       (StatKey.standard_deviation, JsonValue.num 2)] := by
  norm_num [feed_all, feed, init, SUPPORTED_TYPES, pyType, get_statistics,
    values, updates_stats_from_values, sortedValues, List.insertionSort,
    List.orderedInsert, PyValue.toRat, NumericalStats.to_json, ratSqrt,
    isqrt, isqrtGo]

open NumericDataAnalyzer in
/-- C7: feeding a supported value raises nothing, appends the value at
the end of the Value Buffer, grows the buffer by exactly one, keeps
every previously buffered element in place (the old buffer is an
unchanged prefix), and touches no other state. -/
theorem C7_feed_appends (a : NumericDataAnalyzer) (v : PyValue)
    (h : pyType v ∈ SUPPORTED_TYPES) :
    (feed a v).2 = none ∧
    (feed a v).1._values = a._values ++ [v] ∧
    (feed a v).1._values.length = a._values.length + 1 ∧
    (feed a v).1._values.take a._values.length = a._values ∧
    (feed a v).1.stats = a.stats := by
  rw [feed_of_supported a v h]
  exact ⟨rfl, rfl, by simp, List.take_left a._values [v], rfl⟩

open NumericDataAnalyzer in
/-- Witness for C7: feeding `0` into a Collector already holding `5`. -/
theorem C7_feed_appends_witness :
    pyType (PyValue.vint 0) ∈ SUPPORTED_TYPES ∧
    ((feed { _values := [PyValue.vint 5], stats := none }
        (PyValue.vint 0)).2 = none ∧
     (feed { _values := [PyValue.vint 5], stats := none }
        (PyValue.vint 0)).1._values
       = ({ _values := [PyValue.vint 5], stats := none } :
            NumericDataAnalyzer)._values ++ [PyValue.vint 0] ∧
     (feed { _values := [PyValue.vint 5], stats := none }
        (PyValue.vint 0)).1._values.length
       = ({ _values := [PyValue.vint 5], stats := none } :
            NumericDataAnalyzer)._values.length + 1 ∧
     (feed { _values := [PyValue.vint 5], stats := none }
        (PyValue.vint 0)).1._values.take
          ({ _values := [PyValue.vint 5], stats := none } :
            NumericDataAnalyzer)._values.length
       = ({ _values := [PyValue.vint 5], stats := none } :
            NumericDataAnalyzer)._values ∧
     (feed { _values := [PyValue.vint 5], stats := none }
        (PyValue.vint 0)).1.stats
       = ({ _values := [PyValue.vint 5], stats := none } :
            NumericDataAnalyzer).stats) :=
  ⟨by decide,
   C7_feed_appends { _values := [PyValue.vint 5], stats := none }
     (PyValue.vint 0) (by decide)⟩

open NumericDataAnalyzer in
/-- C8: `get_statistics` leaves the Value Buffer unchanged; the only
state it mutates is the cached last-computed Statistics Record, which is
overwritten with the freshly derived record on every call, whatever it
held before. -/
theorem C8_get_statistics_frame (a : NumericDataAnalyzer) :
    (get_statistics a).1._values = a._values ∧
    (get_statistics a).1.stats
      = some (updates_stats_from_values a._values) ∧
    (get_statistics a).1
      = { a with stats := some (updates_stats_from_values a._values) } :=
  ⟨rfl, rfl, rfl⟩

open NumericDataAnalyzer in
/-- C9: the mixed integral/real sequence `[1, 2.5, 3]` is accepted by
`feed_all` with no type error, and the statistics are computed over all
three values read as real numbers: `count = 3`, `mean = 13/6`,
`median = 5/2`, `min = 1`, `max = 3`. -/
theorem C9_mixed_numeric :
    (feed_all init
      [PyValue.vint 1, PyValue.vfloat (5 / 2), PyValue.vint 3]).2 = none ∧
    (feed_all init
      [PyValue.vint 1, PyValue.vfloat (5 / 2), PyValue.vint 3]).1._values
      = [PyValue.vint 1, PyValue.vfloat (5 / 2), PyValue.vint 3] ∧
    (updates_stats_from_values
      [PyValue.vint 1, PyValue.vfloat (5 / 2), PyValue.vint 3]).count = 3 ∧
    (updates_stats_from_values
      [PyValue.vint 1, PyValue.vfloat (5 / 2), PyValue.vint 3]).mean
      = some (13 / 6) ∧
    (updates_stats_from_values
      [PyValue.vint 1, PyValue.vfloat (5 / 2), PyValue.vint 3]).median
      = some (5 / 2) ∧
    (updates_stats_from_values
      [PyValue.vint 1, PyValue.vfloat (5 / 2), PyValue.vint 3]).min
      = some 1 ∧
    (updates_stats_from_values
      [PyValue.vint 1, PyValue.vfloat (5 / 2), PyValue.vint 3]).max
      = some 3 := by
  norm_num [feed_all, feed, init, SUPPORTED_TYPES, pyType,
    updates_stats_from_values, sortedValues, List.insertionSort,
    List.orderedInsert, PyValue.toRat]

open NumericDataAnalyzer in
/-- C10: the supported-kind check is exact runtime-type membership in
`{int, float}`, not a subtype test: a boolean value, whose type is a
subclass of `int`, is rejected by `feed` with the structured error and
the buffer is unchanged. -/
theorem C10_bool_rejected (a : NumericDataAnalyzer) (b : Bool) :
    (∀ v : PyValue, pyType v ∈ SUPPORTED_TYPES ↔
      (pyType v = PyType.int ∨ pyType v = PyType.float)) ∧
    PyType.isSubclassOf PyType.bool PyType.int = true ∧
    pyType (PyValue.vbool b) ∉ SUPPORTED_TYPES ∧
    feed a (PyValue.vbool b) =
      (a, some { item_type := PyType.bool,
                 analyzer_type := AnalyzerType.NumericDataAnalyzer,
                 supported_types := SUPPORTED_TYPES }) ∧
    (feed a (PyValue.vbool b)).1._values = a._values := by
  have hb : pyType (PyValue.vbool b) ∉ SUPPORTED_TYPES := by
    simp [pyType, SUPPORTED_TYPES]
  have he := feed_of_not_supported a (PyValue.vbool b) hb
  exact ⟨fun v => by simp [SUPPORTED_TYPES], by decide, hb,
    he, by rw [he]⟩
